import Mathlib

/-!
Verification of the quiz-app backend (FastAPI, src/backend-python).

Shallow embedding of the parts of the code that the claims C1..C10 touch:
scoring (app/services/scoring.py), the WebSocket hub game state and
record_answer (app/ws/hub.py), the zero-fill and completion projector and
the pause/resume and pass_presenter logic (app/ws/game_handler.py), the
mega-quiz readiness helpers (app/services/mega_quiz.py), and the join /
display-name logic (app/routes/join.py).

Datetimes are modelled as integer milliseconds; Python ints are modelled
as Nat or Int. Python float arithmetic appears only in
calculate_speed_based_score as int(1000 * remaining / time_limit), which
for the integer magnitudes used by the app (time limits in milliseconds,
far below 2 to the 53) equals floor division; it is modelled as Nat floor
division.
-/

namespace QuizApp

/-! ## Scoring: app/services/scoring.py -/

/-- `calculate_speed_based_score` from app/services/scoring.py, lines 11 to 24.
Returns 1 for answers at or past the time limit, otherwise
max(1, min(1000, floor(1000 * remaining / time_limit))). -/
def calculate_speed_based_score (time_limit_ms response_time_ms : Nat) : Nat :=
  if time_limit_ms ≤ response_time_ms then 1
  else
    let remaining_time := time_limit_ms - response_time_ms
    let score := 1000 * remaining_time / time_limit_ms
    max 1 (min 1000 score)

/-- The delta applied by `_score_answer_submission` in
app/ws/game_handler.py, lines 160 to 166: the speed-based score when the
selected answer equals the correct answer of the question, otherwise 0. -/
def score_delta (correct_answer selected_answer : String)
    (time_limit_ms response_time_ms : Nat) : Nat :=
  if selected_answer = correct_answer then
    calculate_speed_based_score time_limit_ms response_time_ms
  else 0

/-- `_calculate_response_time_ms` from app/ws/game_handler.py: clamps the
elapsed wall-clock milliseconds at 0, or None when the question has no
start timestamp. -/
def calculate_response_time_ms (question_started_at : Option Int)
    (submitted_at : Int) : Option Nat :=
  match question_started_at with
  | none => none
  | some started => some (submitted_at - started).toNat

/-! ## Hub game state and record_answer: app/ws/hub.py -/

/-- Quiz phases from app/ws/messages.py. -/
inductive QuizPhase where
  | not_started
  | showing_question
  | revealing_answer
  | showing_leaderboard
  | between_questions
  | segment_complete
  | mega_quiz_ready
  | mega_quiz
  | event_complete
  | presenter_paused
deriving DecidableEq

/-- ParticipantInfo from app/ws/messages.py (fields used by the claims). -/
structure ParticipantInfo where
  user_id : Nat
  username : String := ("")
  join_status : String := ("joined")
  is_late_joiner : Bool := false
  joined_at : Option Int := none
  online : Bool := true
deriving DecidableEq

/-- One cached question of the active segment, as stored in
GameState.questions by the start_game branch of the handler. -/
structure QuestionData where
  qid : Nat
  text : String
  correct_answer : String
deriving DecidableEq

/-- GameState from app/ws/hub.py (fields used by the claims). The
answers_received dict is modelled as an insertion-ordered association
list, and the scored_question_ids set as a list queried by membership. -/
structure GameState where
  current_segment_id : Option Nat := none
  current_presenter_id : Option Nat := none
  current_question_id : Option Nat := none
  current_question_index : Nat := 0
  question_started_at : Option Int := none
  time_limit_seconds : Nat := 30
  quiz_phase : QuizPhase := QuizPhase.not_started
  presenter_paused : Bool := false
  presenter_pause_reason : Option String := none
  questions : List QuestionData := []
  participants : List ParticipantInfo := []
  answers_received : List (Nat × String) := []
  total_questions : Nat := 0
  scored_question_ids : List Nat := []
deriving DecidableEq

/-- Default of Settings.answer_timeout_grace_ms in app/config.py line 61. -/
def answer_timeout_grace_ms : Int := 500

/-- The rejection reasons of Hub.record_answer in app/ws/hub.py. -/
inductive AnswerError where
  | no_session
  | paused
  | no_question
  | late_join
  | duplicate
  | too_late
deriving DecidableEq

/-- Dict lookup in answers_received. -/
def lookup_answer (l : List (Nat × String)) (u : Nat) : Option String :=
  (l.find? (fun kv => kv.1 = u)).map (fun kv => kv.2)

/-- The late-join test of Hub.record_answer, lines 204 to 213: the
participant exists, has a joined_at, and joined strictly after the
question started. -/
def late_join_check (g : GameState) (user_id : Nat) (started : Int) : Bool :=
  match g.participants.find? (fun p => p.user_id = user_id) with
  | some p =>
    match p.joined_at with
    | some j => decide (started < j)
    | none => false
  | none => false

/-- Hub.record_answer from app/ws/hub.py, lines 185 to 226. The hub is
modelled as the optional game state of the event session; the result pairs
the (success, error_reason) return value with the state after the call.
grace_setting is settings.answer_timeout_grace_ms. -/
def record_answer (hub : Option GameState) (user_id : Nat) (answer : String)
    (submitted_at : Int) (grace_setting : Int) :
    (Bool × Option AnswerError) × Option GameState :=
  match hub with
  | none => ((false, some AnswerError.no_session), none)
  | some g =>
    if g.presenter_paused then ((false, some AnswerError.paused), some g)
    else
      match g.question_started_at with
      | none => ((false, some AnswerError.no_question), some g)
      | some started =>
        if late_join_check g user_id started then
          ((false, some AnswerError.late_join), some g)
        else if (lookup_answer g.answers_received user_id).isSome then
          ((false, some AnswerError.duplicate), some g)
        else
          let elapsed_ms : Int := submitted_at - started
          let time_limit_ms : Int := (g.time_limit_seconds : Int) * 1000
          let grace_ms : Int := max grace_setting 0
          if time_limit_ms + grace_ms ≤ elapsed_ms then
            ((false, some AnswerError.too_late), some g)
          else
            ((true, none),
             some { g with answers_received := g.answers_received ++ [(user_id, answer)] })

/-! ## Pause and resume: app/ws/game_handler.py -/

/-- The shared tail of both resume blocks of the join branch
(app/ws/game_handler.py, lines 508 to 534 and 547 to 573): when the
question list has an entry at the current index, cache its id as
current_question_id. -/
def set_current_question_from_index (g : GameState) : GameState :=
  match g.questions[g.current_question_index]? with
  | some q => { g with current_question_id := some q.qid }
  | none => g

/-- First resume block of the join branch (lines 495 to 534): a paused
quiz waiting for participants resumes when a participant arrives and
questions are loaded. participant_count is hub.get_participant_count. -/
def resume_for_new_participant (g : GameState) (participant_count : Nat)
    (now : Int) : GameState :=
  if g.presenter_paused ∧ g.presenter_pause_reason = some ("no_participants")
      ∧ 0 < participant_count ∧ g.questions ≠ [] then
    set_current_question_from_index
      { g with presenter_paused := false, presenter_pause_reason := none,
               quiz_phase := QuizPhase.showing_question,
               question_started_at := some now }
  else g

/-- Second resume block of the join branch (lines 537 to 573): the
presenter reconnecting while the quiz is paused resumes the current
question. -/
def resume_for_presenter_reconnect (g : GameState) (user_id : Nat)
    (now : Int) : GameState :=
  if g.presenter_paused ∧ g.current_presenter_id = some user_id then
    set_current_question_from_index
      { g with presenter_paused := false, presenter_pause_reason := none,
               quiz_phase := QuizPhase.showing_question,
               question_started_at := some now }
  else g

/-- Both resume blocks as executed in order by the join branch. -/
def join_resume (g : GameState) (user_id : Nat) (participant_count : Nat)
    (now : Int) : GameState :=
  resume_for_presenter_reconnect
    (resume_for_new_participant g participant_count now) user_id now

/-- The state change of the presenter-disconnect handler
(app/ws/game_handler.py, lines 1214 to 1217). -/
def pause_for_presenter_disconnect (g : GameState) : GameState :=
  { g with presenter_paused := true,
           presenter_pause_reason := some ("presenter_disconnected"),
           quiz_phase := QuizPhase.presenter_paused,
           question_started_at := none }

/-- The state change of the no-participants pause in the start_game
branch (lines 896 to 899). -/
def pause_for_no_participants (g : GameState) : GameState :=
  { g with presenter_paused := true,
           presenter_pause_reason := some ("no_participants"),
           quiz_phase := QuizPhase.presenter_paused,
           question_started_at := none }

/-! ## Persisted scores and zero-fill: scoring.py apply_score and
game_handler.py _apply_zero_scores_for_unanswered -/

/-- A SegmentScore row (app/models). upsert_segment_score creates it with
zero fields. -/
structure SegmentScoreRow where
  score : Int := 0
  questions_answered : Nat := 0
  questions_correct : Nat := 0
  total_response_time_ms : Int := 0
deriving DecidableEq

/-- The per-event totals of an EventParticipant row. -/
structure ParticipantRow where
  total_score : Int := 0
  total_response_time_ms : Int := 0
  join_status : String := ("joined")
deriving DecidableEq

/-- The database rows touched by apply_score, keyed by
(segment_id, participant_id) and participant_id. -/
structure DbState where
  segment_scores : List ((Nat × Nat) × SegmentScoreRow) := []
  participant_rows : List (Nat × ParticipantRow) := []
deriving DecidableEq

/-- apply_score from app/services/scoring.py, lines 46 to 79: upsert the
segment score row, add the deltas, and mirror score and response time
into the participant row when it exists. -/
def apply_score (db : DbState) (segment_id participant_id : Nat)
    (delta_score : Int) (is_correct : Bool) (response_time_ms : Option Int) :
    DbState :=
  let key : Nat × Nat := (segment_id, participant_id)
  let rt : Int := match response_time_ms with | some v => v | none => 0
  let bump := fun (r : SegmentScoreRow) =>
    { r with score := r.score + delta_score,
             questions_answered := r.questions_answered + 1,
             questions_correct := r.questions_correct + (if is_correct then 1 else 0),
             total_response_time_ms := r.total_response_time_ms + rt }
  let seg :=
    if (db.segment_scores.find? (fun kv => kv.1 = key)).isSome then
      db.segment_scores.map (fun kv => if kv.1 = key then (kv.1, bump kv.2) else kv)
    else
      db.segment_scores ++ [(key, bump {})]
  let part :=
    db.participant_rows.map (fun kv =>
      if kv.1 = participant_id then
        (kv.1, { kv.2 with total_score := kv.2.total_score + delta_score,
                           total_response_time_ms := kv.2.total_response_time_ms + rt })
      else kv)
  { segment_scores := seg, participant_rows := part }

/-- One loop iteration of _apply_zero_scores_for_unanswered
(app/ws/game_handler.py, lines 197 to 221): skip participants who are
segment_complete or answered; otherwise apply a zero score and promote
waiting_for_segment to active_in_quiz in both caches. -/
def zero_fill_step (segment_id : Nat) (answered_ids : List Nat)
    (acc : DbState × List ParticipantInfo) (p : ParticipantInfo) :
    DbState × List ParticipantInfo :=
  if p.join_status = ("segment_complete") then (acc.1, acc.2 ++ [p])
  else if p.user_id ∈ answered_ids then (acc.1, acc.2 ++ [p])
  else
    let db1 := apply_score acc.1 segment_id p.user_id 0 false none
    if p.join_status = ("waiting_for_segment") then
      let db2 :=
        { db1 with participant_rows := db1.participant_rows.map (fun kv =>
            if kv.1 = p.user_id then
              (kv.1, { kv.2 with join_status := ("active_in_quiz") })
            else kv) }
      (db2, acc.2 ++ [{ p with join_status := ("active_in_quiz") }])
    else (db1, acc.2 ++ [p])

/-- _apply_zero_scores_for_unanswered from app/ws/game_handler.py, lines
183 to 227. Returns unchanged when no question or segment is active or
the question was already scored; otherwise zero-fills every eligible
unanswered participant and records the question id in
scored_question_ids. The has_changes flag of the source only gates the
database commit and does not affect the resulting state. -/
def apply_zero_scores_for_unanswered (g : GameState) (db : DbState) :
    GameState × DbState :=
  match g.current_question_id, g.current_segment_id with
  | some question_id, some segment_id =>
    if question_id ∈ g.scored_question_ids then (g, db)
    else
      let answered_ids := g.answers_received.map Prod.fst
      let r := g.participants.foldl (zero_fill_step segment_id answered_ids) (db, [])
      ({ g with participants := r.2,
                scored_question_ids := question_id :: g.scored_question_ids },
       r.1)
  | _, _ => (g, db)

/-! ## Completion projector: app/ws/game_handler.py
_maybe_emit_completion_payload with app/services/mega_quiz.py -/

/-- Segment statuses from app/models. -/
inductive SegmentStatus where
  | pending
  | recording
  | quizzing
  | completed
deriving DecidableEq

/-- A Segment row together with the number of its Question rows. -/
structure SegmentRow where
  status : SegmentStatus
  question_count : Nat
deriving DecidableEq

/-- An EventParticipant row as used by _get_event_leaderboard. -/
structure EventParticipantRow where
  pid : Nat
  display_name : String
  total_score : Int
  total_response_time_ms : Int
deriving DecidableEq

/-- The database rows of one event that the completion projector reads. -/
structure EventDb where
  segments : List SegmentRow
  participants : List EventParticipantRow
deriving DecidableEq

/-- count_event_questions from app/services/mega_quiz.py, lines 57 to 79:
the total number of Question rows across all segments of the event. -/
def count_event_questions (db : EventDb) : Nat :=
  (db.segments.map (fun s => s.question_count)).sum

/-- MegaQuizMetadata from app/services/mega_quiz.py. -/
structure MegaQuizMetadata where
  segment_count : Nat
  available_questions : Nat
deriving DecidableEq

/-- get_mega_quiz_metadata from app/services/mega_quiz.py, lines 94 to
104: available_questions is the event question count, or 0 when the
event has no segments. -/
def get_mega_quiz_metadata (db : EventDb) : MegaQuizMetadata :=
  { segment_count := db.segments.length,
    available_questions :=
      if db.segments.length ≠ 0 then count_event_questions db else 0 }

/-- should_emit_mega_quiz_ready from app/services/mega_quiz.py, lines 107
to 113: true exactly when available_questions is positive; the
single-segment mode parameter is not consulted. -/
def should_emit_mega_quiz_ready (metadata : MegaQuizMetadata)
    (single_segment_mode : String) : Bool :=
  if metadata.available_questions ≤ 0 then false else true

/-- Stable insertion into a list sorted by le. -/
def insert_le {α : Type} (le : α → α → Bool) (a : α) : List α → List α
  | [] => [a]
  | b :: bs => if le a b then a :: b :: bs else b :: insert_le le a bs

/-- Stable insertion sort; models the deterministic ordering produced by
the SQL ORDER BY of _get_event_leaderboard. -/
def order_by {α : Type} (le : α → α → Bool) : List α → List α
  | [] => []
  | x :: xs => insert_le le x (order_by le xs)

/-- The ORDER BY key of _get_event_leaderboard: total_score descending,
then total_response_time_ms ascending. -/
def participant_le (a b : EventParticipantRow) : Bool :=
  decide (b.total_score < a.total_score ∨
    (a.total_score = b.total_score ∧
     a.total_response_time_ms ≤ b.total_response_time_ms))

/-- _get_event_leaderboard from app/ws/game_handler.py, lines 230 to 271:
the event participants ordered by score descending and accumulated
response time ascending. -/
def get_event_leaderboard (db : EventDb) : List EventParticipantRow :=
  order_by participant_le db.participants

/-- The two completion payloads the projector can emit. The leaderboard
and winner carry the rows they are built from; the message fields not
referenced by the claims (segment winners, mode flags) are omitted. -/
inductive CompletionPayload where
  | mega_quiz_ready (available_questions : Nat)
      (current_leaderboard : List EventParticipantRow)
  | event_complete (final_leaderboard : List EventParticipantRow)
      (winner : Option EventParticipantRow)
deriving DecidableEq

/-- _maybe_emit_completion_payload from app/ws/game_handler.py, lines 328
to 358: None while any segment is not completed; otherwise
mega_quiz_ready when should_emit_mega_quiz_ready holds, else
event_complete whose winner is the first leaderboard entry when the
leaderboard is nonempty and None otherwise. -/
def maybe_emit_completion_payload (db : EventDb)
    (single_segment_mode : String) : Option CompletionPayload :=
  if db.segments.any (fun s => decide (s.status ≠ SegmentStatus.completed)) then
    none
  else
    let metadata := get_mega_quiz_metadata db
    let leaderboard := get_event_leaderboard db
    if should_emit_mega_quiz_ready metadata single_segment_mode then
      some (CompletionPayload.mega_quiz_ready metadata.available_questions leaderboard)
    else
      some (CompletionPayload.event_complete leaderboard leaderboard.head?)

/-! ## pass_presenter: app/ws/game_handler.py, lines 725 to 815 -/

/-- The error frames the pass_presenter branch can answer with. The
event-or-segment-not-found error of the source presupposes a dangling id
and is not modelled; the state carries the event and segment rows. -/
inductive PassError where
  | no_active_segment
  | not_authorized
  | target_not_in_event
  | target_not_connected
deriving DecidableEq

/-- The data the pass_presenter branch reads: the cached game state ids,
the event host, the segment presenter, the user ids of the EventParticipant
rows of the event, and the connected user ids of the session. -/
structure PassState where
  current_segment_id : Option Nat
  host_id : Nat
  segment_presenter_user_id : Option Nat
  event_participant_user_ids : List Nat
  connections : List Nat
  game_current_presenter_id : Option Nat
deriving DecidableEq

/-- Outcome of a pass_presenter request. -/
inductive PassOutcome where
  | error (reason : PassError)
  | ok (new_presenter : Nat)
deriving DecidableEq

/-- The pass_presenter branch of websocket_event
(app/ws/game_handler.py, lines 725 to 815): require an active segment,
host or current presenter authorization, the target being an
EventParticipant of the event, and the target being connected; then set
the segment and game-state presenter to the target. The source applies
no distinctness check between the requester or current presenter and the
target. -/
def pass_presenter (st : PassState) (user_id next_presenter_id : Nat) :
    PassOutcome × PassState :=
  match st.current_segment_id with
  | none => (PassOutcome.error PassError.no_active_segment, st)
  | some _ =>
    if ¬ (st.host_id = user_id ∨ st.segment_presenter_user_id = some user_id) then
      (PassOutcome.error PassError.not_authorized, st)
    else if next_presenter_id ∉ st.event_participant_user_ids then
      (PassOutcome.error PassError.target_not_in_event, st)
    else if next_presenter_id ∉ st.connections then
      (PassOutcome.error PassError.target_not_connected, st)
    else
      (PassOutcome.ok next_presenter_id,
       { st with segment_presenter_user_id := some next_presenter_id,
                 game_current_presenter_id := some next_presenter_id })

/-! ## Join and display names: app/routes/join.py -/

/-- The while loop of _get_unique_display_name (app/routes/join.py,
lines 46 to 50): starting at counter c, advance while the candidate
"base c" is among the existing names. The loop of the source is
unbounded; here it carries fuel, and the lemmas below show that
existing.length + 1 steps always suffice. -/
def find_counter (existing : List String) (base : String) :
    Nat → Nat → Nat
  | c, 0 => c
  | c, fuel + 1 =>
    if base ++ (" ") ++ Nat.repr c ∈ existing then
      find_counter existing base (c + 1) fuel
    else c

/-- _get_unique_display_name from app/routes/join.py, lines 28 to 52.
existing is the multiset of display names already present in the event;
the SQL LIKE prefix filter of the source only restricts the fetched rows
to a superset of every candidate tested, so membership tests agree with
testing against all names. -/
def get_unique_display_name (existing : List String) (base : String) : String :=
  if base ∈ existing then
    base ++ (" ") ++ Nat.repr (find_counter existing base 2 (existing.length + 1))
  else base

/-- Python str.strip as used on the requested display name
(app/routes/join.py, line 170): drop whitespace from both ends. -/
def strip (s : String) : String :=
  String.mk (((s.data.dropWhile Char.isWhitespace).reverse.dropWhile
    Char.isWhitespace).reverse)

/-- The errors of _execute_join relevant to the rejoin path. -/
inductive JoinError where
  | event_locked
  | device_in_other_event
deriving DecidableEq

/-- The fields of the existing EventParticipant row read and written by
the rejoin branch of _execute_join. -/
structure ExistingParticipant where
  display_name : String
  session_token : Option String
  last_heartbeat : Int
deriving DecidableEq

/-- The JoinEventResponse fields the claims reference. -/
structure JoinEventResponse where
  session_token : String
  display_name : String
  is_rejoining : Bool
deriving DecidableEq

/-- The token chosen by the rejoin branch (app/routes/join.py, line 154):
the stored session token when it is truthy, else the freshly generated
one. The empty string is falsy in Python. -/
def rejoin_token (p : ExistingParticipant) (fresh_token : String) : String :=
  match p.session_token with
  | some t => if t = ("") then fresh_token else t
  | none => fresh_token

/-- The rejoin branch of _execute_join (app/routes/join.py, lines 150 to
168): refresh the heartbeat, choose the token, and answer with
is_rejoining true and the stored display name. -/
def rejoin_existing (p : ExistingParticipant) (now : Int)
    (fresh_token : String) : ExistingParticipant × JoinEventResponse :=
  let token := rejoin_token p fresh_token
  ({ p with last_heartbeat := now, session_token := some token },
   { session_token := token, display_name := p.display_name,
     is_rejoining := true })

/-- The lock check of _execute_join (app/routes/join.py, lines 88 to
113): a locked event rejects the join unless the lock carries a
timestamp at most 5 seconds before the join started. -/
def lock_rejects (join_locked : Bool) (join_locked_at : Option Int)
    (join_start : Int) : Bool :=
  join_locked &&
    (match join_locked_at with
     | none => true
     | some locked_at => decide (5000 < join_start - locked_at))

/-- Outcome of _execute_join: a rejoin carrying the updated row and the
response, or a fresh participant carrying the assigned display name. -/
inductive JoinOutcome where
  | rejoined (updated : ExistingParticipant) (response : JoinEventResponse)
  | created (assigned_name : String)
deriving DecidableEq

/-- _execute_join from app/routes/join.py, lines 68 to 240, as far as the
claims reach: the lock check, the device-in-another-active-event check,
then either the rejoin branch for an existing (event, device) row or the
new-participant branch, whose assigned name is the unique display name
computed from the whitespace-trimmed request name. -/
def execute_join (join_locked : Bool) (join_locked_at : Option Int)
    (join_start : Int) (device_in_other_active_event : Bool)
    (existing : Option ExistingParticipant) (event_names : List String)
    (requested_name : String) (now : Int) (fresh_token : String) :
    Except JoinError JoinOutcome :=
  if lock_rejects join_locked join_locked_at join_start then
    Except.error JoinError.event_locked
  else if device_in_other_active_event then
    Except.error JoinError.device_in_other_event
  else
    match existing with
    | some p =>
      Except.ok (JoinOutcome.rejoined (rejoin_existing p now fresh_token).1
        (rejoin_existing p now fresh_token).2)
    | none =>
      Except.ok (JoinOutcome.created
        (get_unique_display_name event_names (strip requested_name)))

/-! ## Decoding decimal numerals

Nat.repr prints most-significant-first decimal digits. The decoder below
gives a left inverse, from which Nat.repr is injective; injectivity
bounds the display-name counter loop by a pigeonhole argument. -/

/-- Value of a decimal digit character (48 is the code of the zero digit). -/
def digit_val (c : Char) : Nat := c.toNat - 48

/-- Decode a most-significant-first decimal digit list. -/
def decode_digits (l : List Char) : Nat :=
  l.foldl (fun a c => 10 * a + digit_val c) 0

/-- Most-significant-first decimal digits of a natural number; shown below
to agree with Nat.toDigits 10. -/
def digits_of (n : Nat) : List Char :=
  if h : n < 10 then [Nat.digitChar n]
  else
    have : n / 10 < n := Nat.div_lt_self (by omega) (by omega)
    digits_of (n / 10) ++ [Nat.digitChar (n % 10)]

/-! ## Concrete states used by witnesses and counterexamples -/

/-- A game state with an active 30 second question and no answers yet. -/
def c3_state : GameState :=
  { question_started_at := some 0, presenter_paused := false,
    time_limit_seconds := 30 }

/-- A paused game state at question index 7 whose presenter is user 3. -/
def c5_state : GameState :=
  { presenter_paused := true, current_presenter_id := some 3,
    current_question_index := 7,
    questions := [{ qid := 1, text := ("q"), correct_answer := ("a") }] }

/-- A game state whose only participant joined after the question started. -/
def c6_state : GameState :=
  { question_started_at := some 50, presenter_paused := false,
    participants := [{ user_id := 7, username := ("u"),
                       joined_at := some 100 }] }

/-- An event whose single segment is completed with zero questions. -/
def c2_db : EventDb :=
  { segments := [{ status := SegmentStatus.completed, question_count := 0 }],
    participants := [{ pid := 1, display_name := ("Ann"), total_score := 5,
                       total_response_time_ms := 0 },
                     { pid := 2, display_name := ("Bea"), total_score := 9,
                       total_response_time_ms := 0 }] }

/-- A pass_presenter context whose current presenter, user 2, is a
connected participant of the event. -/
def c7_state : PassState :=
  { current_segment_id := some 1, host_id := 1,
    segment_presenter_user_id := some 2,
    event_participant_user_ids := [2, 3], connections := [2, 3],
    game_current_presenter_id := some 2 }

/-- A pass_presenter context whose target, user 3, is a participant of
the event but is not connected. -/
def c7_state_offline : PassState :=
  { current_segment_id := some 1, host_id := 1,
    segment_presenter_user_id := some 2,
    event_participant_user_ids := [2, 3], connections := [2],
    game_current_presenter_id := some 2 }

/-- An existing participant row holding a session token. -/
def c8_existing : ExistingParticipant :=
  { display_name := ("Sam"), session_token := some ("tok"),
    last_heartbeat := 0 }

/-! ## Theorems -/

/-- C1: for every time_limit_ms > 0 and response_time_ms in
[0, time_limit_ms), the speed-based score of a correct answer equals
max(1, min(1000, floor(1000 * (time_limit_ms - response_time_ms) /
time_limit_ms))); when response_time_ms >= time_limit_ms the score is 1;
and when the selected answer differs from the correct answer the applied
score delta is 0. -/
theorem speed_score_spec (time_limit_ms response_time_ms : Nat)
    (correct selected : String) :
    (0 < time_limit_ms → response_time_ms < time_limit_ms →
      calculate_speed_based_score time_limit_ms response_time_ms =
        max 1 (min 1000 (1000 * (time_limit_ms - response_time_ms) / time_limit_ms)))
    ∧ (time_limit_ms ≤ response_time_ms →
        calculate_speed_based_score time_limit_ms response_time_ms = 1)
    ∧ (selected ≠ correct →
        score_delta correct selected time_limit_ms response_time_ms = 0) := by
  refine ⟨fun _ hlt => ?_, fun hle => ?_, fun hne => ?_⟩
  · simp [calculate_speed_based_score, Nat.not_le.mpr hlt]
  · simp [calculate_speed_based_score, hle]
  · simp [score_delta, hne]

/-- Witness for C1 at time limit 1000 ms: response at 250 ms scores by the
formula, a response at 1500 ms scores 1, and a wrong answer has delta 0. -/
theorem speed_score_spec_witness :
    calculate_speed_based_score 1000 250 =
      max 1 (min 1000 (1000 * (1000 - 250) / 1000))
    ∧ calculate_speed_based_score 1000 1500 = 1
    ∧ score_delta ("A") ("B") 1000 250 = 0 :=
  ⟨(speed_score_spec 1000 250 ("A") ("B")).1 (by decide) (by decide),
   (speed_score_spec 1000 1500 ("A") ("B")).2.1 (by decide),
   (speed_score_spec 1000 250 ("A") ("B")).2.2 (by decide)⟩

/-- C10: whenever record_answer rejects a submission, the game state is
left completely unchanged. -/
theorem record_answer_atomic_on_error (hub : Option GameState) (u : Nat)
    (ans : String) (t grace : Int) (e : AnswerError)
    (h : (record_answer hub u ans t grace).1 = (false, some e)) :
    (record_answer hub u ans t grace).2 = hub := by
  cases hub with
  | none => rfl
  | some g =>
    by_cases hp : g.presenter_paused = true
    · simp [record_answer, hp]
    · cases hq : g.question_started_at with
      | none => simp [record_answer, hp, hq]
      | some started =>
        by_cases hl : late_join_check g u started = true
        · simp [record_answer, hp, hq, hl]
        · by_cases hd : (lookup_answer g.answers_received u).isSome = true
          · simp [record_answer, hp, hq, hl, hd]
          · by_cases ht : (g.time_limit_seconds : Int) * 1000 + max grace 0 ≤ t - started
            · simp [record_answer, hp, hq, hl, hd, ht]
            · simp [record_answer, hp, hq, hl, hd, ht] at h

/-- Witness for C10: a rejection in a paused state returns the state
untouched. -/
theorem record_answer_atomic_on_error_witness :
    (record_answer (some c5_state) 1 ("x") 0 500).2 = some c5_state :=
  record_answer_atomic_on_error (some c5_state) 1 ("x") 0 500
    AnswerError.paused (by decide)

/-- C3: once the staleness, pause, late-join and duplicate checks pass,
the submission is rejected with too_late exactly when the elapsed
milliseconds reach time_limit_ms plus the grace (default 500 ms); with a
30 second limit, 29.9 s is admitted and 30.6 s is rejected. -/
theorem too_late_boundary_spec (g : GameState) (u : Nat) (ans : String)
    (started : Int)
    (hpause : g.presenter_paused = false)
    (hq : g.question_started_at = some started)
    (hlj : late_join_check g u started = false)
    (hdup : lookup_answer g.answers_received u = none) :
    (∀ t : Int,
      (record_answer (some g) u ans t answer_timeout_grace_ms).1 =
        (false, some AnswerError.too_late) ↔
      (g.time_limit_seconds : Int) * 1000 + max answer_timeout_grace_ms 0 ≤
        t - started)
    ∧ (g.time_limit_seconds = 30 →
        (record_answer (some g) u ans (started + 29900)
          answer_timeout_grace_ms).1 = (true, none)
        ∧ (record_answer (some g) u ans (started + 30600)
            answer_timeout_grace_ms).1 = (false, some AnswerError.too_late)) := by
  have hgr : max answer_timeout_grace_ms 0 = 500 := by decide
  constructor
  · intro t
    by_cases ht : (g.time_limit_seconds : Int) * 1000 + max answer_timeout_grace_ms 0 ≤ t - started
    · simp [record_answer, hpause, hq, hlj, hdup, ht]
    · simp [record_answer, hpause, hq, hlj, hdup, ht]
  · intro h30
    have h1 : ¬ ((g.time_limit_seconds : Int) * 1000 + max answer_timeout_grace_ms 0 ≤
        (29900 : Int)) := by
      rw [h30, hgr]; decide
    have h2 : (g.time_limit_seconds : Int) * 1000 + max answer_timeout_grace_ms 0 ≤
        (30600 : Int) := by
      rw [h30, hgr]; decide
    constructor
    · simp [record_answer, hpause, hq, hlj, hdup, h1]
    · simp [record_answer, hpause, hq, hlj, hdup, h2]

/-- Witness for C3: in a fresh 30 second question started at 0, an answer
at 29900 ms is admitted and an answer at 30600 ms is rejected too_late. -/
theorem too_late_boundary_spec_witness :
    (record_answer (some c3_state) 1 ("x") ((0 : Int) + 29900)
      answer_timeout_grace_ms).1 = (true, none)
    ∧ (record_answer (some c3_state) 1 ("x") ((0 : Int) + 30600)
        answer_timeout_grace_ms).1 = (false, some AnswerError.too_late) :=
  (too_late_boundary_spec c3_state 1 ("x") 0 rfl rfl (by decide) rfl).2 rfl

/-- Caching the current question id does not touch the question index. -/
theorem set_current_question_index_eq (g : GameState) :
    (set_current_question_from_index g).current_question_index =
      g.current_question_index := by
  unfold set_current_question_from_index
  split <;> rfl

/-- Caching the current question id does not touch the pause flag. -/
theorem set_current_question_paused_eq (g : GameState) :
    (set_current_question_from_index g).presenter_paused =
      g.presenter_paused := by
  unfold set_current_question_from_index
  split <;> rfl

/-- The first resume block never changes the question index. -/
theorem resume_for_new_participant_index_eq (g : GameState)
    (participant_count : Nat) (now : Int) :
    (resume_for_new_participant g participant_count now).current_question_index =
      g.current_question_index := by
  unfold resume_for_new_participant
  split
  · rw [set_current_question_index_eq]
  · rfl

/-- The second resume block never changes the question index. -/
theorem resume_for_presenter_reconnect_index_eq (g : GameState)
    (user_id : Nat) (now : Int) :
    (resume_for_presenter_reconnect g user_id now).current_question_index =
      g.current_question_index := by
  unfold resume_for_presenter_reconnect
  split
  · rw [set_current_question_index_eq]
  · rfl

/-- The join-branch resume sequence never changes the question index. -/
theorem join_resume_index_eq (g : GameState) (user_id participant_count : Nat)
    (now : Int) :
    (join_resume g user_id participant_count now).current_question_index =
      g.current_question_index := by
  unfold join_resume
  rw [resume_for_presenter_reconnect_index_eq, resume_for_new_participant_index_eq]

/-- C5: while presenter_paused holds, every submission is rejected with
reason paused; and resuming after either kind of pause leaves
current_question_index at its value at the moment of the pause, with the
pause actually lifted under the respective resume conditions. -/
theorem pause_admission_resume_spec (g : GameState) (u : Nat) (ans : String)
    (t grace : Int) (u2 cnt : Nat) (now : Int) :
    (g.presenter_paused = true →
      record_answer (some g) u ans t grace =
        ((false, some AnswerError.paused), some g))
    ∧ (join_resume (pause_for_no_participants g) u2 cnt now).current_question_index =
        g.current_question_index
    ∧ (join_resume (pause_for_presenter_disconnect g) u2 cnt now).current_question_index =
        g.current_question_index
    ∧ (0 < cnt → g.questions ≠ [] →
        (join_resume (pause_for_no_participants g) u2 cnt now).presenter_paused = false)
    ∧ (g.current_presenter_id = some u2 →
        (join_resume (pause_for_presenter_disconnect g) u2 cnt now).presenter_paused = false) := by
  refine ⟨fun hp => by simp [record_answer, hp], ?_, ?_, ?_, ?_⟩
  · rw [join_resume_index_eq]; rfl
  · rw [join_resume_index_eq]; rfl
  · intro hcnt hq
    unfold join_resume
    have hcond : (pause_for_no_participants g).presenter_paused = true
        ∧ (pause_for_no_participants g).presenter_pause_reason = some ("no_participants")
        ∧ 0 < cnt ∧ (pause_for_no_participants g).questions ≠ [] := by
      exact ⟨rfl, rfl, hcnt, hq⟩
    unfold resume_for_new_participant
    rw [if_pos ⟨hcond.1, hcond.2.1, hcond.2.2.1, hcond.2.2.2⟩]
    unfold resume_for_presenter_reconnect
    rw [if_neg]
    · rw [set_current_question_paused_eq]
    · intro hcon
      have := hcon.1
      rw [set_current_question_paused_eq] at this
      simp at this
  · intro hpres
    unfold join_resume
    unfold resume_for_new_participant
    rw [if_neg]
    · unfold resume_for_presenter_reconnect
      rw [if_pos ⟨rfl, hpres⟩]
      rw [set_current_question_paused_eq]
    · intro hcon
      have := hcon.2.1
      simp [pause_for_presenter_disconnect] at this

/-- Witness for C5 at a paused state with question index 7: the paused
rejection, the index preservation through both pause and resume pairs,
and the lifted pause. -/
theorem pause_admission_resume_spec_witness :
    record_answer (some c5_state) 4 ("x") 0 500 =
      ((false, some AnswerError.paused), some c5_state)
    ∧ (join_resume (pause_for_no_participants c5_state) 3 1 99).current_question_index = 7
    ∧ (join_resume (pause_for_presenter_disconnect c5_state) 3 1 99).current_question_index = 7
    ∧ (join_resume (pause_for_no_participants c5_state) 3 1 99).presenter_paused = false
    ∧ (join_resume (pause_for_presenter_disconnect c5_state) 3 1 99).presenter_paused = false := by
  obtain ⟨h1, h2, h3, h4, h5⟩ :=
    pause_admission_resume_spec c5_state 4 ("x") 0 500 3 1 99
  exact ⟨h1 rfl, by rw [h2]; rfl, by rw [h3]; rfl, h4 (by decide) (by decide), h5 rfl⟩

/-- C6: a participant who joined strictly after the active question
started is rejected with reason late_join, and can never gain an entry in
answers_received for that question. -/
theorem late_join_isolation_spec (g : GameState) (u : Nat)
    (p : ParticipantInfo) (started j : Int)
    (hp : g.participants.find? (fun q => q.user_id = u) = some p)
    (hj : p.joined_at = some j)
    (hq : g.question_started_at = some started)
    (hlate : started < j) :
    (g.presenter_paused = false → ∀ ans t grace,
      record_answer (some g) u ans t grace =
        ((false, some AnswerError.late_join), some g))
    ∧ (lookup_answer g.answers_received u = none → ∀ ans t grace g2,
        (record_answer (some g) u ans t grace).2 = some g2 →
        lookup_answer g2.answers_received u = none) := by
  have hcheck : late_join_check g u started = true := by
    simp [late_join_check, hp, hj, hlate]
  constructor
  · intro hpause ans t grace
    simp [record_answer, hpause, hq, hcheck]
  · intro hnone ans t grace g2 h2
    by_cases hpause : g.presenter_paused = true
    · simp [record_answer, hpause] at h2
      rw [← h2]; exact hnone
    · simp [record_answer, hpause, hq, hcheck] at h2
      rw [← h2]; exact hnone

/-- Witness for C6: the participant who joined at 100 answers the
question started at 50 and is rejected late_join with no entry recorded. -/
theorem late_join_isolation_spec_witness :
    record_answer (some c6_state) 7 ("x") 60 500 =
      ((false, some AnswerError.late_join), some c6_state)
    ∧ lookup_answer c6_state.answers_received 7 = none := by
  obtain ⟨h1, _⟩ := late_join_isolation_spec c6_state 7
    { user_id := 7, username := ("u"), joined_at := some 100 } 50 100
    (by decide) rfl rfl (by decide)
  exact ⟨h1 rfl ("x") 60 500, rfl⟩

/-- C4: zero-fill is idempotent per question: applying it a second time
for the same question id changes neither the game-state caches nor any
persisted questions_answered, score, questions_correct or
total_response_time_ms, because the scored_question_ids guard makes the
second application a no-op. -/
theorem zero_fill_idempotent (g : GameState) (db : DbState) :
    apply_zero_scores_for_unanswered
        (apply_zero_scores_for_unanswered g db).1
        (apply_zero_scores_for_unanswered g db).2 =
      apply_zero_scores_for_unanswered g db := by
  rcases hq : g.current_question_id with _ | qid
  · have h0 : apply_zero_scores_for_unanswered g db = (g, db) := by
      simp [apply_zero_scores_for_unanswered, hq]
    rw [h0]
    simpa using h0
  · rcases hs : g.current_segment_id with _ | seg
    · have h0 : apply_zero_scores_for_unanswered g db = (g, db) := by
        simp [apply_zero_scores_for_unanswered, hq, hs]
      rw [h0]
      simpa using h0
    · by_cases hin : qid ∈ g.scored_question_ids
      · have h0 : apply_zero_scores_for_unanswered g db = (g, db) := by
          simp [apply_zero_scores_for_unanswered, hq, hs, hin]
        rw [h0]
        simpa using h0
      · have h1 : apply_zero_scores_for_unanswered g db =
            ({ g with
                participants := (g.participants.foldl
                  (zero_fill_step seg (g.answers_received.map Prod.fst)) (db, [])).2,
                scored_question_ids := qid :: g.scored_question_ids },
             (g.participants.foldl
                (zero_fill_step seg (g.answers_received.map Prod.fst)) (db, [])).1) := by
          simp [apply_zero_scores_for_unanswered, hq, hs, hin]
        rw [h1]
        simp [apply_zero_scores_for_unanswered, hq, hs]

/-- C2: when every segment of the event is completed, the projector emits
mega_quiz_ready when the total question count is positive, and otherwise
event_complete whose winner is the head of the event leaderboard. -/
theorem completion_projection_spec (db : EventDb) (mode : String)
    (hall : ∀ s ∈ db.segments, s.status = SegmentStatus.completed) :
    (0 < count_event_questions db →
      maybe_emit_completion_payload db mode =
        some (CompletionPayload.mega_quiz_ready
          (get_mega_quiz_metadata db).available_questions
          (get_event_leaderboard db)))
    ∧ (count_event_questions db = 0 →
        maybe_emit_completion_payload db mode =
          some (CompletionPayload.event_complete (get_event_leaderboard db)
            (get_event_leaderboard db).head?)) := by
  have hany : db.segments.any
      (fun s => decide (s.status ≠ SegmentStatus.completed)) = false := by
    rw [List.any_eq_false]
    intro s hs
    simp [hall s hs]
  constructor
  · intro hpos
    have hne : db.segments.length ≠ 0 := by
      intro hlen
      rw [List.length_eq_zero] at hlen
      rw [count_event_questions, hlen] at hpos
      simp at hpos
    have hav : (get_mega_quiz_metadata db).available_questions =
        count_event_questions db := by
      simp [get_mega_quiz_metadata, hne]
    have hemit : should_emit_mega_quiz_ready (get_mega_quiz_metadata db) mode = true := by
      rw [should_emit_mega_quiz_ready, if_neg]
      rw [hav]
      omega
    simp [maybe_emit_completion_payload, hany, hemit]
    exact hall
  · intro h0
    have hav : (get_mega_quiz_metadata db).available_questions = 0 := by
      by_cases hne : db.segments.length ≠ 0
      · simp [get_mega_quiz_metadata, hne, h0]
      · simp [get_mega_quiz_metadata, hne]
    have hemit : should_emit_mega_quiz_ready (get_mega_quiz_metadata db) mode = false := by
      rw [should_emit_mega_quiz_ready, if_pos]
      omega
    simp [maybe_emit_completion_payload, hany, hemit]
    exact hall

/-- Witness for C2: an event with one completed zero-question segment
projects event_complete, and its winner is the top-scoring participant. -/
theorem completion_projection_spec_witness :
    maybe_emit_completion_payload c2_db ("remix") =
      some (CompletionPayload.event_complete (get_event_leaderboard c2_db)
        (get_event_leaderboard c2_db).head?)
    ∧ (get_event_leaderboard c2_db).head? =
        some { pid := 2, display_name := ("Bea"), total_score := 9,
               total_response_time_ms := 0 } :=
  ⟨(completion_projection_spec c2_db ("remix") (by decide)).2 (by decide),
   by decide⟩

/-- C7 counterexample: the claim states that naming the current presenter
as the target is rejected, but in c7_state the connected current
presenter, user 2, passes the role to themselves and the request
succeeds. -/
theorem pass_presenter_self_counterexample :
    (pass_presenter c7_state 2 2).1 = PassOutcome.ok 2
    ∧ c7_state.segment_presenter_user_id = some 2 := by
  decide

/-- C7 amended: a pass_presenter request succeeds exactly when a segment
is active, the requester is host or current presenter, and the target is
a connected participant of the event; naming an offline target is
rejected with an error frame and leaves the presenter unchanged. No
distinctness check exists, so the presenter may pass to themselves. -/
theorem pass_presenter_amended_spec (st : PassState) (uid nid : Nat) :
    ((pass_presenter st uid nid).1 = PassOutcome.ok nid ↔
      st.current_segment_id ≠ none
      ∧ (st.host_id = uid ∨ st.segment_presenter_user_id = some uid)
      ∧ nid ∈ st.event_participant_user_ids
      ∧ nid ∈ st.connections)
    ∧ (nid ∉ st.connections →
        (∃ e, (pass_presenter st uid nid).1 = PassOutcome.error e)
        ∧ (pass_presenter st uid nid).2 = st) := by
  rcases hs : st.current_segment_id with _ | sid
  · constructor
    · simp [pass_presenter, hs]
    · intro hconn
      exact ⟨⟨PassError.no_active_segment, by simp [pass_presenter, hs]⟩,
        by simp [pass_presenter, hs]⟩
  · by_cases hauth : st.host_id = uid ∨ st.segment_presenter_user_id = some uid
    · by_cases hin : nid ∈ st.event_participant_user_ids
      · by_cases hconn : nid ∈ st.connections
        · constructor
          · simp [pass_presenter, hs, hauth, hin, hconn]
          · intro hc; exact absurd hconn hc
        · constructor
          · simp [pass_presenter, hs, hauth, hin, hconn]
          · intro _
            exact ⟨⟨PassError.target_not_connected,
              by simp [pass_presenter, hs, hauth, hin, hconn]⟩,
              by simp [pass_presenter, hs, hauth, hin, hconn]⟩
      · constructor
        · simp [pass_presenter, hs, hauth, hin]
        · intro _
          exact ⟨⟨PassError.target_not_in_event,
            by simp [pass_presenter, hs, hauth, hin]⟩,
            by simp [pass_presenter, hs, hauth, hin]⟩
    · constructor
      · simp [pass_presenter, hs, hauth]
      · intro _
        exact ⟨⟨PassError.not_authorized, by simp [pass_presenter, hs, hauth]⟩,
          by simp [pass_presenter, hs, hauth]⟩

/-- Witness for the amended C7: in c7_state_offline the target, user 3,
is a participant but offline, so the request errors and the state is
unchanged. -/
theorem pass_presenter_amended_spec_witness :
    (∃ e, (pass_presenter c7_state_offline 2 3).1 = PassOutcome.error e)
    ∧ (pass_presenter c7_state_offline 2 3).2 = c7_state_offline :=
  (pass_presenter_amended_spec c7_state_offline 2 3).2 (by decide)

/-- C8 counterexample: the claim states a rejoin issues a new session
token, but rejoining with stored token tok returns tok itself, not the
freshly generated token. -/
theorem rejoin_token_counterexample :
    execute_join false none 0 false (some c8_existing) [] ("Sam") 99 ("fresh") =
      Except.ok (JoinOutcome.rejoined
        { display_name := ("Sam"), session_token := some ("tok"),
          last_heartbeat := 99 }
        { session_token := ("tok"), display_name := ("Sam"),
          is_rejoining := true })
    ∧ ("tok") ≠ ("fresh") := by
  constructor
  · rfl
  · decide

/-- C8 amended: when the join is not rejected by the lock or the
other-event check, a join whose (event, device) pair has an existing row
succeeds as a rejoin: the heartbeat is refreshed to the current time, the
response has is_rejoining true and keeps the display name, and the
session token is the stored one when present and nonempty, a fresh token
being generated only otherwise. -/
theorem rejoin_amended_spec (jl : Bool) (jla : Option Int) (js : Int)
    (p : ExistingParticipant) (names : List String) (rn : String)
    (now : Int) (fresh : String)
    (hlock : lock_rejects jl jla js = false) :
    execute_join jl jla js false (some p) names rn now fresh =
      Except.ok (JoinOutcome.rejoined
        { p with last_heartbeat := now,
                 session_token := some (rejoin_token p fresh) }
        { session_token := rejoin_token p fresh,
          display_name := p.display_name, is_rejoining := true }) := by
  simp [execute_join, hlock, rejoin_existing]

/-- Witness for the amended C8: rejoining with stored token tok refreshes
the heartbeat to 99 and answers with is_rejoining true, name kept and the
stored token. -/
theorem rejoin_amended_spec_witness :
    execute_join false none 0 false (some c8_existing) [] ("Sam") 99 ("fresh") =
      Except.ok (JoinOutcome.rejoined
        { c8_existing with last_heartbeat := 99,
                           session_token := some (rejoin_token c8_existing ("fresh")) }
        { session_token := rejoin_token c8_existing ("fresh"),
          display_name := c8_existing.display_name, is_rejoining := true }) :=
  rejoin_amended_spec false none 0 c8_existing [] ("Sam") 99 ("fresh") (by decide)

/-- Nat.toDigitsCore with sufficient fuel produces the digits of n in
front of the accumulator. -/
theorem toDigitsCore_eq_digits_of (fuel : Nat) :
    ∀ (n : Nat) (ds : List Char), n < 10 ^ (fuel + 1) →
      Nat.toDigitsCore 10 (fuel + 1) n ds = digits_of n ++ ds := by
  induction fuel with
  | zero =>
    intro n ds h
    have hn : n < 10 := by simpa using h
    have hdiv : n / 10 = 0 := Nat.div_eq_of_lt hn
    have hmod : n % 10 = n := Nat.mod_eq_of_lt hn
    unfold digits_of
    rw [dif_pos hn]
    simp [Nat.toDigitsCore, hdiv, hmod]
  | succ fuel ih =>
    intro n ds h
    by_cases hdiv : n / 10 = 0
    · have hn : n < 10 := by omega
      have hmod : n % 10 = n := Nat.mod_eq_of_lt hn
      unfold digits_of
      rw [dif_pos hn]
      simp [Nat.toDigitsCore, hdiv, hmod]
    · have hn10 : ¬ n < 10 := by omega
      have hlt : n / 10 < 10 ^ (fuel + 1) := by
        rw [Nat.div_lt_iff_lt_mul (by omega : (0 : Nat) < 10)]
        calc n < 10 ^ (fuel + 1 + 1) := h
          _ = 10 ^ (fuel + 1) * 10 := by rw [pow_succ]
      have hstep : Nat.toDigitsCore 10 (fuel + 1 + 1) n ds =
          Nat.toDigitsCore 10 (fuel + 1) (n / 10)
            (Nat.digitChar (n % 10) :: ds) := by
        simp [Nat.toDigitsCore, hdiv]
      rw [hstep, ih (n / 10) (Nat.digitChar (n % 10) :: ds) hlt]
      have hdig : digits_of n =
          digits_of (n / 10) ++ [Nat.digitChar (n % 10)] := by
        conv_lhs => rw [digits_of]
        rw [dif_neg hn10]
      rw [hdig, List.append_assoc]
      rfl

/-- The printed digits of n are digits_of n. -/
theorem toDigits_eq_digits_of (n : Nat) :
    Nat.toDigits 10 n = digits_of n := by
  have h : n < 10 ^ (n + 1) := by
    calc n < 2 ^ n := Nat.lt_two_pow n
      _ ≤ 10 ^ n := Nat.pow_le_pow_left (by omega) n
      _ ≤ 10 ^ (n + 1) := Nat.pow_le_pow_right (by omega) (Nat.le_succ n)
  have hcore := toDigitsCore_eq_digits_of n n [] h
  simpa [Nat.toDigits] using hcore

/-- Digit characters decode to their value below 10. -/
theorem digit_val_digitChar (d : Nat) (h : d < 10) :
    digit_val (Nat.digitChar d) = d := by
  interval_cases d <;> rfl

/-- Decoding after appending one digit character. -/
theorem decode_digits_append (l : List Char) (c : Char) :
    decode_digits (l ++ [c]) = 10 * decode_digits l + digit_val c := by
  simp [decode_digits, List.foldl_append]

/-- decode_digits is a left inverse of digits_of. -/
theorem decode_digits_of (n : Nat) : decode_digits (digits_of n) = n := by
  induction n using Nat.strong_induction_on with
  | _ n ih =>
    by_cases hn : n < 10
    · unfold digits_of
      rw [dif_pos hn]
      simp [decode_digits, digit_val_digitChar n hn]
    · unfold digits_of
      rw [dif_neg hn]
      rw [decode_digits_append]
      rw [ih (n / 10) (Nat.div_lt_self (by omega) (by omega))]
      rw [digit_val_digitChar (n % 10) (Nat.mod_lt n (by omega))]
      omega

/-- Nat.repr is injective. -/
theorem nat_repr_injective : Function.Injective Nat.repr := by
  intro m m2 h
  have hd : Nat.toDigits 10 m = Nat.toDigits 10 m2 := congrArg String.data h
  have hdec := congrArg decode_digits hd
  rw [toDigits_eq_digits_of, toDigits_eq_digits_of,
    decode_digits_of, decode_digits_of] at hdec
  exact hdec

/-- The numbered display-name candidates are pairwise distinct. -/
theorem name_candidate_injective (b : String) :
    Function.Injective (fun n : Nat => b ++ (" ") ++ Nat.repr n) := by
  intro m m2 h
  apply nat_repr_injective
  have hd := congrArg String.data h
  simp only [String.data_append] at hd
  have hdd := List.append_cancel_left hd
  exact String.ext hdd

/-- Loop invariant of find_counter: the result is at least the start, at
most start plus fuel, every skipped candidate was taken, and when fuel
was not exhausted the returned candidate is free. -/
theorem find_counter_spec (ex : List String) (b : String) (fuel : Nat) :
    ∀ c : Nat,
      c ≤ find_counter ex b c fuel
      ∧ find_counter ex b c fuel ≤ c + fuel
      ∧ (∀ m, c ≤ m → m < find_counter ex b c fuel →
          b ++ (" ") ++ Nat.repr m ∈ ex)
      ∧ (find_counter ex b c fuel < c + fuel →
          b ++ (" ") ++ Nat.repr (find_counter ex b c fuel) ∉ ex) := by
  induction fuel with
  | zero =>
    intro c
    refine ⟨le_refl c, by simp [find_counter],
      fun m h1 h2 => absurd h2 (by simp [find_counter]; omega),
      fun h => absurd h (by simp [find_counter])⟩
  | succ fuel ih =>
    intro c
    by_cases hmem : b ++ (" ") ++ Nat.repr c ∈ ex
    · have heq : find_counter ex b c (fuel + 1) =
          find_counter ex b (c + 1) fuel := by
        simp [find_counter, hmem]
      obtain ⟨ha, hb, hc, hd⟩ := ih (c + 1)
      rw [heq]
      refine ⟨by omega, by omega, ?_, fun hlt => hd (by omega)⟩
      intro m h1 h2
      rcases Nat.eq_or_lt_of_le h1 with rfl | hlt2
      · exact hmem
      · exact hc m (by omega) h2
    · have heq : find_counter ex b c (fuel + 1) = c := by
        simp [find_counter, hmem]
      rw [heq]
      exact ⟨le_refl c, by omega,
        fun m h1 h2 => absurd h2 (by omega), fun _ => hmem⟩

/-- With fuel existing.length + 1 the loop always stops before exhausting
its fuel: the candidates are pairwise distinct and the list is finite. -/
theorem find_counter_lt (ex : List String) (b : String) (c : Nat) :
    find_counter ex b c (ex.length + 1) < c + (ex.length + 1) := by
  by_contra hge
  push_neg at hge
  obtain ⟨ha, hb, hc, _⟩ := find_counter_spec ex b (ex.length + 1) c
  have hall : ∀ m, c ≤ m → m < c + (ex.length + 1) →
      b ++ (" ") ++ Nat.repr m ∈ ex := by
    intro m h1 h2
    exact hc m h1 (by omega)
  set L := (List.range (ex.length + 1)).map
    (fun i => b ++ (" ") ++ Nat.repr (c + i)) with hL
  have hnodup : L.Nodup := by
    refine List.Nodup.map ?_ (List.nodup_range _)
    intro i j hij
    have h2 := name_candidate_injective b hij
    omega
  have hsub : ∀ x ∈ L, x ∈ ex := by
    intro x hx
    rw [hL, List.mem_map] at hx
    obtain ⟨i, hi, rfl⟩ := hx
    rw [List.mem_range] at hi
    exact hall (c + i) (by omega) (by omega)
  have hlen : L.length = ex.length + 1 := by simp [hL]
  have hcard : ex.length + 1 ≤ ex.length := by
    calc ex.length + 1 = L.toFinset.card := by
          rw [List.toFinset_card_of_nodup hnodup, hlen]
      _ ≤ ex.toFinset.card := Finset.card_le_card (fun x hx => by
          rw [List.mem_toFinset] at hx ⊢
          exact hsub x hx)
      _ ≤ ex.length := ex.toFinset_card_le
  omega

/-- C9: a new participant with trimmed base name b is assigned b itself
when free, and otherwise b followed by a space and the smallest integer
n at least 2 whose candidate is not taken, the comparison being
case-sensitive string equality; three Alex joins receive Alex, Alex 2
and Alex 3 in that order. -/
theorem display_name_uniqueness_spec (names : List String) (r : String) :
    ((strip r) ∉ names → get_unique_display_name names (strip r) = (strip r))
    ∧ ((strip r) ∈ names → ∃ n, 2 ≤ n
        ∧ get_unique_display_name names (strip r) =
            (strip r) ++ (" ") ++ Nat.repr n
        ∧ (strip r) ++ (" ") ++ Nat.repr n ∉ names
        ∧ ∀ m, 2 ≤ m → m < n → (strip r) ++ (" ") ++ Nat.repr m ∈ names)
    ∧ get_unique_display_name [] ("Alex") = ("Alex")
    ∧ get_unique_display_name [("Alex")] ("Alex") = ("Alex 2")
    ∧ get_unique_display_name [("Alex"), ("Alex 2")] ("Alex") = ("Alex 3") := by
  refine ⟨fun h => by simp [get_unique_display_name, h],
    fun h => ?_, by decide, by decide, by decide⟩
  obtain ⟨ha, hb, hc, hd⟩ :=
    find_counter_spec names (strip r) (names.length + 1) 2
  refine ⟨find_counter names (strip r) 2 (names.length + 1), ha, ?_, ?_, ?_⟩
  · simp [get_unique_display_name, h]
  · exact hd (find_counter_lt names (strip r) 2)
  · intro m h2 hm
    exact hc m h2 hm

/-- Witness for C9: joining as Alex when Alex is taken yields the least
free numbered candidate. -/
theorem display_name_uniqueness_spec_witness :
    ∃ n, 2 ≤ n
      ∧ get_unique_display_name [("Alex")] (strip ("Alex")) =
          strip ("Alex") ++ (" ") ++ Nat.repr n
      ∧ strip ("Alex") ++ (" ") ++ Nat.repr n ∉ [("Alex")]
      ∧ ∀ m, 2 ≤ m → m < n →
          strip ("Alex") ++ (" ") ++ Nat.repr m ∈ [("Alex")] :=
  (display_name_uniqueness_spec [("Alex")] ("Alex")).2.1 (by decide)

end QuizApp
